import Mathlib

set_option synthInstance.maxSize 1024

/-!
Verification of the NeutronNova NIFS folding module (`src/neutron_nova/nifs.rs`)
against its natural-language specification.

The module under verification is `NIFS::prove`, `NIFS::verify` and the
`ZeroCheckReduction` prover/verifier.  The collaborators it calls — the
transcript, the sumfold batching engine, the commitment scheme, the accumulator
record types and the polynomial helpers — live outside the provided source and
are modelled from the spec: the transcript squeeze and the sumfold
prover/verifier are kept abstract as fields of an `Env` record (the spec
declares their internals out of scope), while the record types and the
equality/power polynomials follow the spec's data-model section.

A Rust panic (the `.unwrap()` on field inversion in `NIFS::verify`) is modelled
by the `none` case of an `Option` layer around the verifier's `Result`.
-/

/-- Modelled from the spec: the error taxonomy surfaced to callers
(`errors.rs` is not part of the provided source).  `ProofVerifyError` is the
failed-equality error; `TranscriptError` is propagated from the transcript;
`InternalError` stands for any other collaborator error code. -/
inductive NovaError where
  | ProofVerifyError : NovaError
  | TranscriptError : NovaError
  | InternalError : Nat → NovaError
deriving DecidableEq

/-- Modelled from the spec: an R1CS shape; only `num_cons` is read by the
folding module. -/
structure R1CSShape (K : Type) where
  num_cons : Nat

/-- Modelled from the spec: an R1CS instance, opaque to the folding module
(it is only cloned, wrapped and absorbed into the transcript). -/
structure R1CSInstance (K : Type) where
  data : List K
deriving DecidableEq

/-- Modelled from the spec: an R1CS witness, opaque to the folding module. -/
structure R1CSWitness (K : Type) where
  data : List K
deriving DecidableEq

/-- Modelled from the spec: a commitment key (opaque; the commitment scheme's
internals are out of scope). -/
structure CommitmentKey (K : Type) where
  key : Nat
deriving DecidableEq

/-- Modelled from the spec: `commit(key, vector, blinding) -> Commitment`.
The scheme's internals are out of scope and its binding property is assumed,
so a commitment is modelled freely as the triple it was built from:
comparable for equality and absorbable, as the interface requires. -/
structure Commitment (K : Type) where
  key : Nat
  vec : List K
  blind : K
deriving DecidableEq

/-- Modelled from the spec: `PowerPolynomial(τ, ℓ)`, the length-2^ℓ vector
whose i-th entry is `τ^i` (`spartan/polys/power.rs` is not part of the
provided source). -/
structure PowPoly (K : Type) where
  tau : K
  ell : Nat
deriving DecidableEq

/-- Modelled from the spec: `PowPoly::new(tau, ell)`. -/
def PowPoly.new {K : Type} (tau : K) (ell : Nat) : PowPoly K :=
  ⟨tau, ell⟩

/-- Modelled from the spec: the coefficient vector `(1, τ, τ², …, τ^(2^ℓ−1))`. -/
def PowPoly.coeffs {K : Type} [Monoid K] (p : PowPoly K) : List K :=
  (List.range (2 ^ p.ell)).map (fun i => p.tau ^ i)

/-- Modelled from the spec: committing to the power polynomial's coefficient
vector under a blinding scalar. -/
def PowPoly.commit {K : Type} [Monoid K] (p : PowPoly K) (ck : CommitmentKey K)
    (r : K) : Commitment K :=
  ⟨ck.key, p.coeffs, r⟩

/-- Modelled from the spec: the multilinear equality indicator polynomial
(`spartan/polys/eq.rs` is not part of the provided source). -/
structure EqPolynomial (K : Type) where
  r : List K
deriving DecidableEq

/-- Modelled from the spec: `EqPolynomial::new`. -/
def EqPolynomial.new {K : Type} (r : List K) : EqPolynomial K :=
  ⟨r⟩

/-- Modelled from the spec: evaluating the multilinear equality indicator at a
point; the standard product form `∏ (aᵢbᵢ + (1−aᵢ)(1−bᵢ))`, which is 1 exactly
when the two boolean points agree and 0 on every other boolean point. -/
def EqPolynomial.evaluate {K : Type} [CommRing K] (p : EqPolynomial K)
    (x : List K) : K :=
  (List.zipWith (fun a b => a * b + (1 - a) * (1 - b)) p.r x).prod

/-- Modelled from the spec: values absorbable by the transcript — scalars,
commitments and whole instances. -/
inductive TData (K : Type) where
  | scalar : K → TData K
  | comm : Commitment K → TData K
  | inst : R1CSInstance K → TData K
deriving DecidableEq

/-- Modelled from the spec: one transcript event — a labelled absorption or a
labelled squeeze (squeezes ratchet the state, so they are recorded too). -/
inductive TEntry (K : Type) where
  | absorbed : String → TData K → TEntry K
  | squeezed : String → TEntry K
deriving DecidableEq

/-- Modelled from the spec: the Fiat–Shamir transcript, as the protocol label
it was created with plus the ordered history of events; the internal mixing
function is out of scope. -/
structure Transcript (K : Type) where
  proto : String
  hist : List (TEntry K)
deriving DecidableEq

/-- Modelled from the spec: `Transcript::new(label)`. -/
def Transcript.new {K : Type} (proto : String) : Transcript K :=
  ⟨proto, []⟩

/-- Modelled from the spec: `absorb(label, value)` appends the event. -/
def Transcript.absorb {K : Type} (tr : Transcript K) (label : String)
    (d : TData K) : Transcript K :=
  ⟨tr.proto, tr.hist ++ [TEntry.absorbed label d]⟩

/-- Modelled from the spec: the opaque inputs prepared for the sumfold
batching engine by `nsc_to_sumfold_inputs` / `nsc_pc_to_sumfold_inputs`. -/
structure SFInput (K : Type) where
  data : List K
deriving DecidableEq

/-- Modelled from the spec: the opaque sumfold batching-engine proof. -/
structure SumFoldProof (K : Type) where
  data : List K
deriving DecidableEq

/-- Modelled from the spec: the bundle of external collaborators the folding
module calls into — the transcript's squeeze (a deterministic, fallible
function of the protocol label, the event history and the squeeze label), the
two sumfold input preparers, the sumfold prover
`sumfold(transcript, g, h, T, F, g_pc, h_pc, T_pc, F_pc, gamma)` and the
sumfold proof-check
`Proof::verify(transcript, combined_initial_claim, expected_final_target)`.
All are out of scope internally; only their external contracts are used. -/
structure Env (K : Type) where
  squeezeFn : String → List (TEntry K) → String → Except NovaError K
  nscToSF : R1CSShape K → R1CSInstance K → R1CSWitness K → PowPoly K →
    Except NovaError (SFInput K)
  nscPcToSF : PowPoly K → PowPoly K → Except NovaError (SFInput K)
  sumfoldFn : Transcript K → SFInput K → SFInput K → K →
    (K → K → K → K → K → K) → SFInput K → SFInput K → K →
    (K → K → K → K → K → K) → K →
    Except NovaError (SumFoldProof K × K × K × K × Transcript K)
  sfVerify : SumFoldProof K → Transcript K → K → K →
    Except NovaError (K × K × K × Transcript K)

/-- Modelled from the spec: `squeeze(label) -> Scalar`, fallible; on success
the squeeze event is recorded in the history. -/
def Transcript.squeeze {K : Type} (tr : Transcript K) (env : Env K)
    (label : String) : Except NovaError (K × Transcript K) :=
  match env.squeezeFn tr.proto tr.hist label with
  | Except.error err => Except.error err
  | Except.ok v => Except.ok (v, ⟨tr.proto, tr.hist ++ [TEntry.squeezed label]⟩)

/-- Modelled from the spec: the ConstraintView instance — error claim `T`, the
wrapped R1CS instance, and the commitment to the power polynomial
(`running_instance.rs` is not part of the provided source; field order follows
the `NSCInstance::new` call sites in `nifs.rs`). -/
structure NSCInstance (K : Type) where
  T : K
  U : R1CSInstance K
  comm_e : Commitment K
deriving DecidableEq

/-- Modelled from the spec: the ConstraintView witness — the R1CS witness, the
power polynomial, and its blinding scalar. -/
structure NSCWitness (K : Type) where
  W : R1CSWitness K
  e : PowPoly K
  r_e : K
deriving DecidableEq

/-- Modelled from the spec: the PowerConsistencyView instance — error claim
`T`, commitment to the previous power polynomial, the challenge τ, and the
commitment to the new power polynomial (field order follows the
`NSCPCInstance::new` call sites in `nifs.rs`). -/
structure NSCPCInstance (K : Type) where
  T : K
  comm_old_e : Commitment K
  tau : K
  comm_new_e : Commitment K
deriving DecidableEq

/-- Modelled from the spec: the PowerConsistencyView witness — previous and
new power polynomials with their blinding scalars (field order follows the
`NSCPCWitness::new` call site in `nifs.rs`). -/
structure NSCPCWitness (K : Type) where
  e : PowPoly K
  new_e : PowPoly K
  r_e : K
  new_r_e : K
deriving DecidableEq

/-- Modelled from the spec: the ZeroCheckCommitmentView instance — the
commitment to the current power polynomial and the challenge τ. -/
structure ZCPCInstance (K : Type) where
  comm_e : Commitment K
  tau : K
deriving DecidableEq

/-- Modelled from the spec: the ZeroCheckCommitmentView witness — the power
polynomial and its blinding scalar. -/
structure ZCPCWitness (K : Type) where
  e : PowPoly K
  r_e : K
deriving DecidableEq

/-- Modelled from the spec: the running accumulator instance, composed of its
three sub-views. -/
structure RunningZFInstance (K : Type) where
  nsc : NSCInstance K
  nsc_pc : NSCPCInstance K
  zc_pc : ZCPCInstance K
deriving DecidableEq

/-- Modelled from the spec: the running accumulator witness, composed of its
three sub-witnesses. -/
structure RunningZFWitness (K : Type) where
  nsc : NSCWitness K
  nsc_pc : NSCPCWitness K
  zc_pc : ZCPCWitness K
deriving DecidableEq

/-- Modelled from the spec: the random-linear-combination-at-`r_b` of two
scalars used when folding two sub-records into one. -/
def linComb {K : Type} [CommRing K] (r a b : K) : K :=
  (1 - r) * a + r * b

/-- Modelled from the spec: componentwise linear combination of two opaque
R1CS instances at `r_b`. -/
def R1CSInstance.lin {K : Type} [CommRing K] (r : K) (a b : R1CSInstance K) :
    R1CSInstance K :=
  ⟨List.zipWith (linComb r) a.data b.data⟩

/-- Modelled from the spec: linear combination of commitments at `r_b`
(supported implicitly through the additively homomorphic scheme). -/
def Commitment.lin {K : Type} [CommRing K] (r : K) (a b : Commitment K) :
    Commitment K :=
  ⟨a.key, List.zipWith (linComb r) a.vec b.vec, linComb r a.blind b.blind⟩

/-- Modelled from the spec: `RunningZFInstance::fold` (`running_instance.rs`
is not part of the provided source).  Per the spec: replace each sub-view's
error-claim with the corresponding final evaluation (`T` / `T_pc`), adopt the
new zero-check view as the carried-forward one, and combine the remaining
fields of the running and fresh sub-views as a random linear combination at
`r_b`. -/
def RunningZFInstance.fold {K : Type} [CommRing K] (U1 : RunningZFInstance K)
    (nsc_U2 : NSCInstance K) (r_b T : K) (nsc_pc_U2 : NSCPCInstance K)
    (T_pc : K) (new_zc_pc_U : ZCPCInstance K) : RunningZFInstance K :=
  ⟨⟨T, R1CSInstance.lin r_b U1.nsc.U nsc_U2.U,
      Commitment.lin r_b U1.nsc.comm_e nsc_U2.comm_e⟩,
   ⟨T_pc, Commitment.lin r_b U1.nsc_pc.comm_old_e nsc_pc_U2.comm_old_e,
      linComb r_b U1.nsc_pc.tau nsc_pc_U2.tau,
      Commitment.lin r_b U1.nsc_pc.comm_new_e nsc_pc_U2.comm_new_e⟩,
   new_zc_pc_U⟩

/-- Modelled from the spec: `RunningZFWitness::fold` — replace the masking
material with its combination at `r_b` and adopt the new power polynomial and
the new zero-check witness. -/
def RunningZFWitness.fold {K : Type} [CommRing K] (W1 : RunningZFWitness K)
    (nsc_W2 : NSCWitness K) (r_b : K) (nsc_pc_W2 : NSCPCWitness K)
    (new_zc_pc_W : ZCPCWitness K) : RunningZFWitness K :=
  ⟨⟨⟨List.zipWith (linComb r_b) W1.nsc.W.data nsc_W2.W.data⟩, nsc_W2.e,
      linComb r_b W1.nsc.r_e nsc_W2.r_e⟩,
   ⟨nsc_pc_W2.e, nsc_pc_W2.new_e, linComb r_b W1.nsc_pc.r_e nsc_pc_W2.r_e,
      linComb r_b W1.nsc_pc.new_r_e nsc_pc_W2.new_r_e⟩,
   new_zc_pc_W⟩

/-- Fuel-driven base-2 logarithm helper (structurally recursive so that it
evaluates by kernel reduction). -/
def log2Fuel : Nat → Nat → Nat
  | 0, _ => 0
  | fuel + 1, m => if 2 ≤ m then log2Fuel fuel (m / 2) + 1 else 0

/-- Modelled from the spec: `Math::log_2` of the constraint count
(`spartan/math.rs` is not part of the provided source). -/
def log_2 (n : Nat) : Nat :=
  log2Fuel n n

/-- The NIFS fold proof: the new power-polynomial commitment, the sumfold
proof, and the two claimed cross-term scalars (`nifs.rs`, `struct NIFS`). -/
structure NIFS (K : Type) where
  comm_e : Commitment K
  sf_proof : SumFoldProof K
  T : K
  T_pc : K
deriving DecidableEq

/-- `ZeroCheckReduction::prove` (`nifs.rs` lines 158–192), with the blinding
scalar `r_e` — drawn from the process-global `OsRng` in the source — made an
explicit argument, and the mutated transcript returned explicitly. -/
def ZeroCheckReduction.prove {K : Type} [CommRing K] (env : Env K)
    (ck : CommitmentKey K) (transcript : Transcript K)
    (ZC_PC_U : ZCPCInstance K) (ZC_PC_W : ZCPCWitness K) (U : R1CSInstance K)
    (W : R1CSWitness K) (ell : Nat) (r_e : K) :
    Except NovaError (NSCInstance K × NSCWitness K × NSCPCInstance K ×
      NSCPCWitness K × ZCPCInstance K × ZCPCWitness K × Transcript K) :=
  match transcript.squeeze env "tau" with
  | Except.error err => Except.error err
  | Except.ok (tau, tr1) =>
    let e := PowPoly.new tau ell
    let comm_e := e.commit ck r_e
    let tr2 := tr1.absorb "comm_e" (TData.comm comm_e)
    let nsc_U : NSCInstance K := ⟨0, U, comm_e⟩
    let nsc_W : NSCWitness K := ⟨W, e, r_e⟩
    let nsc_pc_U : NSCPCInstance K := ⟨0, ZC_PC_U.comm_e, tau, comm_e⟩
    let nsc_pc_W : NSCPCWitness K := ⟨ZC_PC_W.e, e, ZC_PC_W.r_e, r_e⟩
    let new_zc_pc_U : ZCPCInstance K := ⟨comm_e, tau⟩
    let new_zc_pc_W : ZCPCWitness K := ⟨e, r_e⟩
    Except.ok (nsc_U, nsc_W, nsc_pc_U, nsc_pc_W, new_zc_pc_U, new_zc_pc_W, tr2)

/-- `ZeroCheckReduction::verify` (`nifs.rs` lines 194–209), with the mutated
transcript returned explicitly. -/
def ZeroCheckReduction.verify {K : Type} [CommRing K] (env : Env K)
    (transcript : Transcript K) (ZC_PC_U : ZCPCInstance K)
    (U : R1CSInstance K) (comm_e : Commitment K) :
    Except NovaError (NSCInstance K × NSCPCInstance K × ZCPCInstance K ×
      Transcript K) :=
  match transcript.squeeze env "tau" with
  | Except.error err => Except.error err
  | Except.ok (tau, tr1) =>
    let tr2 := tr1.absorb "comm_e" (TData.comm comm_e)
    let nsc_U : NSCInstance K := ⟨0, U, comm_e⟩
    let nsc_pc_U : NSCPCInstance K := ⟨0, ZC_PC_U.comm_e, tau, comm_e⟩
    let new_zc_pc_U : ZCPCInstance K := ⟨comm_e, tau⟩
    Except.ok (nsc_U, nsc_pc_U, new_zc_pc_U, tr2)

/-- `NIFS::prove` (`nifs.rs` lines 43–111), with the external collaborators
supplied by `env` and the blinding scalar `r_e` made explicit. -/
def NIFS.prove {K : Type} [CommRing K] (env : Env K) (S : R1CSShape K)
    (ck : CommitmentKey K) (U1 : RunningZFInstance K)
    (W1 : RunningZFWitness K) (U2 : R1CSInstance K) (W2 : R1CSWitness K)
    (r_e : K) :
    Except NovaError (NIFS K × RunningZFInstance K × RunningZFWitness K) :=
  let transcript : Transcript K := Transcript.new "NeutronNova"
  let tr0 := transcript.absorb "U2" (TData.inst U2)
  match ZeroCheckReduction.prove env ck tr0 U1.zc_pc W1.zc_pc U2 W2
      (log_2 S.num_cons) r_e with
  | Except.error err => Except.error err
  | Except.ok (nsc_U2, nsc_W2, nsc_pc_U2, nsc_pc_W2, new_zc_pc_U, new_zc_pc_W,
      tr1) =>
    match env.nscToSF S U1.nsc.U W1.nsc.W W1.nsc.e with
    | Except.error err => Except.error err
    | Except.ok g =>
      match env.nscToSF S nsc_U2.U nsc_W2.W nsc_W2.e with
      | Except.error err => Except.error err
      | Except.ok h =>
        let F := fun (az bz cz h1 h2 : K) => (az * bz - cz) * h1 * h2
        match env.nscPcToSF W1.nsc_pc.e W1.nsc_pc.new_e with
        | Except.error err => Except.error err
        | Except.ok g_pc =>
          match env.nscPcToSF nsc_pc_W2.e nsc_pc_W2.new_e with
          | Except.error err => Except.error err
          | Except.ok h_pc =>
            let F_pc := fun (g1 g2 g3 h1 h2 : K) => (g1 - g2 * g3) * h1 * h2
            match tr1.squeeze env "gamma" with
            | Except.error err => Except.error err
            | Except.ok (gamma, tr2) =>
              match env.sumfoldFn tr2 g h U1.nsc.T F g_pc h_pc U1.nsc_pc.T
                  F_pc gamma with
              | Except.error err => Except.error err
              | Except.ok (sf_proof, r_b, T, T_pc, tr3) =>
                let _tr4 := (tr3.absorb "T" (TData.scalar T)).absorb "T_pc"
                  (TData.scalar T_pc)
                let nifs : NIFS K := ⟨new_zc_pc_U.comm_e, sf_proof, T, T_pc⟩
                let U := U1.fold nsc_U2 r_b T nsc_pc_U2 T_pc new_zc_pc_U
                let W := W1.fold nsc_W2 r_b nsc_pc_W2 new_zc_pc_W
                Except.ok (nifs, U, W)

/-- `NIFS::verify` (`nifs.rs` lines 114–151).  The `Option` layer models the
possibility of a Rust panic: `none` is the panic of the `.unwrap()` on the
field inversion at line 142, `some r` is a normal return of `r`. -/
def NIFS.verify {K : Type} [Field K] [DecidableEq K] (env : Env K)
    (self : NIFS K) (U1 : RunningZFInstance K) (U2 : R1CSInstance K) :
    Option (Except NovaError (RunningZFInstance K)) :=
  let transcript : Transcript K := Transcript.new "NeutronNova"
  let tr0 := transcript.absorb "U2" (TData.inst U2)
  match ZeroCheckReduction.verify env tr0 U1.zc_pc U2 self.comm_e with
  | Except.error err => some (Except.error err)
  | Except.ok (nsc_U2, nsc_pc_U2, new_zc_pc_U, tr1) =>
    match tr1.squeeze env "gamma" with
    | Except.error err => some (Except.error err)
    | Except.ok (gamma, tr2) =>
      match env.sfVerify self.sf_proof tr2 (U1.nsc.T + gamma * U1.nsc_pc.T)
          0 with
      | Except.error err => some (Except.error err)
      | Except.ok (c, beta, r_b, tr3) =>
        let _tr4 := (tr3.absorb "T" (TData.scalar self.T)).absorb "T_pc"
          (TData.scalar self.T_pc)
        let ev := (EqPolynomial.new [beta]).evaluate [r_b]
        if ev = 0 then
          none
        else
          let T_gamma := c * ev⁻¹
          if T_gamma ≠ self.T + gamma * self.T_pc then
            some (Except.error NovaError.ProofVerifyError)
          else
            some (Except.ok
              (U1.fold nsc_U2 r_b self.T nsc_pc_U2 self.T_pc new_zc_pc_U))

deriving instance DecidableEq for Except

/-! ### Concrete objects for witnesses -/

instance : Fact (Nat.Prime 101) := ⟨by norm_num⟩

/-- A concrete external-collaborator bundle over `ZMod 101` used to evaluate
the theorems on closed inputs: the squeeze returns 3 (τ) on short histories
and 5 (γ) afterwards, the sumfold prover pins `r_b = 2` with final evaluations
`T = 7`, `T_pc = 9`, and the sumfold proof-check returns
`(c, β, r_b) = (67, 4, 2)` — consistent, since `eq(4, 2) = 11` and
`67 · 11⁻¹ = 52 = 7 + 5·9` in `ZMod 101`. -/
def envW : Env (ZMod 101) :=
  ⟨fun _ hist _ => Except.ok (if hist.length ≤ 1 then 3 else 5),
   fun _ _ _ _ => Except.ok ⟨[]⟩,
   fun _ _ => Except.ok ⟨[]⟩,
   fun tr _ _ _ _ _ _ _ _ _ => Except.ok (⟨[]⟩, 2, 7, 9, tr),
   fun _ tr _ _ => Except.ok (67, 4, 2, tr)⟩

/-- A concrete commitment key. -/
def ckW : CommitmentKey (ZMod 101) := ⟨0⟩

/-- A concrete previous zero-check view instance. -/
def zcUW : ZCPCInstance (ZMod 101) := ⟨⟨0, [], 0⟩, 0⟩

/-- A concrete previous zero-check view witness. -/
def zcWW : ZCPCWitness (ZMod 101) := ⟨⟨0, 0⟩, 0⟩

/-- A concrete fresh R1CS instance. -/
def U2W : R1CSInstance (ZMod 101) := ⟨[2]⟩

/-- A concrete fresh R1CS witness. -/
def W2W : R1CSWitness (ZMod 101) := ⟨[3]⟩

/-- The commitment produced by the concrete run of the zero-check reduction:
`PowPoly(3, 0)` committed under blinding scalar 6. -/
def commW : Commitment (ZMod 101) := (PowPoly.new (3 : ZMod 101) 0).commit ckW 6

/-- A trivial concrete commitment. -/
def cmW : Commitment (ZMod 101) := ⟨0, [], 0⟩

/-- A concrete running accumulator instance with cross-term claims 7 and 9. -/
def U1W : RunningZFInstance (ZMod 101) :=
  ⟨⟨7, ⟨[1]⟩, cmW⟩, ⟨9, cmW, 0, cmW⟩, ⟨cmW, 0⟩⟩

/-- A concrete running accumulator witness matching `U1W`. -/
def W1W : RunningZFWitness (ZMod 101) :=
  ⟨⟨⟨[1]⟩, ⟨0, 0⟩, 0⟩, ⟨⟨0, 0⟩, ⟨0, 0⟩, 0, 0⟩, ⟨⟨0, 0⟩, 0⟩⟩

/-- A concrete single-constraint shape (the spec's ℓ = 0 boundary case). -/
def SW : R1CSShape (ZMod 101) := ⟨1⟩

/-- A concrete fold proof consistent with `envW`'s collaborators. -/
def nifsW : NIFS (ZMod 101) := ⟨commW, ⟨[]⟩, 7, 9⟩

/-- A collaborator bundle whose sumfold proof-check returns `β = 0`, `r_b = 1`,
a point where the equality polynomial evaluates to zero — the case a malicious
proof could force. -/
def envP : Env (ZMod 101) :=
  ⟨fun _ hist _ => Except.ok (if hist.length ≤ 1 then 3 else 5),
   fun _ _ _ _ => Except.ok ⟨[]⟩,
   fun _ _ => Except.ok ⟨[]⟩,
   fun tr _ _ _ _ _ _ _ _ _ => Except.ok (⟨[]⟩, 2, 7, 9, tr),
   fun _ tr _ _ => Except.ok (1, 0, 1, tr)⟩

/-! ### Characterization lemmas (shared helpers) -/

/-- Unfolding of `ZeroCheckReduction::prove` when the τ-squeeze succeeds. -/
lemma ZeroCheckReduction.prove_eq_ok {K : Type} [CommRing K] (env : Env K)
    (ck : CommitmentKey K) (tr : Transcript K) (zcU : ZCPCInstance K)
    (zcW : ZCPCWitness K) (U : R1CSInstance K) (W : R1CSWitness K) (ell : Nat)
    (r_e tau : K)
    (htau : env.squeezeFn tr.proto tr.hist "tau" = Except.ok tau) :
    ZeroCheckReduction.prove env ck tr zcU zcW U W ell r_e =
      Except.ok (⟨0, U, (PowPoly.new tau ell).commit ck r_e⟩,
        ⟨W, PowPoly.new tau ell, r_e⟩,
        ⟨0, zcU.comm_e, tau, (PowPoly.new tau ell).commit ck r_e⟩,
        ⟨zcW.e, PowPoly.new tau ell, zcW.r_e, r_e⟩,
        ⟨(PowPoly.new tau ell).commit ck r_e, tau⟩,
        ⟨PowPoly.new tau ell, r_e⟩,
        ⟨tr.proto, tr.hist ++ [TEntry.squeezed "tau",
          TEntry.absorbed "comm_e"
            (TData.comm ((PowPoly.new tau ell).commit ck r_e))]⟩) := by
  unfold ZeroCheckReduction.prove Transcript.squeeze
  rw [htau]
  simp [Transcript.absorb]

/-- Unfolding of `ZeroCheckReduction::verify` when the τ-squeeze succeeds. -/
lemma ZeroCheckReduction.verify_eq_ok {K : Type} [CommRing K] (env : Env K)
    (tr : Transcript K) (zcU : ZCPCInstance K) (U : R1CSInstance K)
    (ce : Commitment K) (tau : K)
    (htau : env.squeezeFn tr.proto tr.hist "tau" = Except.ok tau) :
    ZeroCheckReduction.verify env tr zcU U ce =
      Except.ok (⟨0, U, ce⟩, ⟨0, zcU.comm_e, tau, ce⟩, ⟨ce, tau⟩,
        ⟨tr.proto, tr.hist ++ [TEntry.squeezed "tau",
          TEntry.absorbed "comm_e" (TData.comm ce)]⟩) := by
  unfold ZeroCheckReduction.verify Transcript.squeeze
  rw [htau]
  simp [Transcript.absorb]

/-! ### Claims C6, C7, C9 -/

/-- C6: `ZeroCheckReduction::verify` mirrors `prove` on the instance side:
from the same starting transcript, given the commitment `prove` computed
(carried in `prove`'s new zero-check view), `verify` leaves the transcript in
the same state and returns exactly the three instance-side records `prove`
produced, with no witness data (its return type carries none). -/
theorem zcr_verify_agrees_with_prove {K : Type} [CommRing K] (env : Env K)
    (ck : CommitmentKey K) (tr : Transcript K) (zcU : ZCPCInstance K)
    (zcW : ZCPCWitness K) (U : R1CSInstance K) (W : R1CSWitness K) (ell : Nat)
    (r_e : K) (nsc_U : NSCInstance K) (nsc_W : NSCWitness K)
    (nsc_pc_U : NSCPCInstance K) (nsc_pc_W : NSCPCWitness K)
    (zU : ZCPCInstance K) (zW : ZCPCWitness K) (tr' : Transcript K)
    (hp : ZeroCheckReduction.prove env ck tr zcU zcW U W ell r_e =
      Except.ok (nsc_U, nsc_W, nsc_pc_U, nsc_pc_W, zU, zW, tr')) :
    ZeroCheckReduction.verify env tr zcU U zU.comm_e =
      Except.ok (nsc_U, nsc_pc_U, zU, tr') := by
  unfold ZeroCheckReduction.prove Transcript.squeeze at hp
  cases htau : env.squeezeFn tr.proto tr.hist "tau" with
  | error err => rw [htau] at hp; simp at hp
  | ok tau =>
    rw [htau] at hp
    simp only [Except.ok.injEq, Prod.mk.injEq] at hp
    obtain ⟨h1, _, h3, _, h5, _, h7⟩ := hp
    rw [ZeroCheckReduction.verify_eq_ok env tr zcU U zU.comm_e tau htau]
    subst h1 h3 h7
    rw [← h5]
    simp [Transcript.absorb]

/-- Closed evaluation of C6 on a concrete run over `ZMod 101`. -/
theorem zcr_verify_agrees_with_prove_witness :
    ZeroCheckReduction.verify envW (Transcript.new "NeutronNova") zcUW U2W
      commW = Except.ok (⟨0, U2W, commW⟩, ⟨0, zcUW.comm_e, 3, commW⟩,
        ⟨commW, 3⟩, ⟨"NeutronNova", [TEntry.squeezed "tau",
          TEntry.absorbed "comm_e" (TData.comm commW)]⟩) :=
  zcr_verify_agrees_with_prove envW ckW (Transcript.new "NeutronNova") zcUW
    zcWW U2W W2W 0 6 ⟨0, U2W, commW⟩ ⟨W2W, PowPoly.new 3 0, 6⟩
    ⟨0, zcUW.comm_e, 3, commW⟩ ⟨zcWW.e, PowPoly.new 3 0, zcWW.r_e, 6⟩
    ⟨commW, 3⟩ ⟨PowPoly.new 3 0, 6⟩
    ⟨"NeutronNova", [TEntry.squeezed "tau",
      TEntry.absorbed "comm_e" (TData.comm commW)]⟩ (by decide)


/-- C7: the constraint-view instance produced by the zero-check reduction (on
both the prover and the verifier side) has error-claim exactly zero, wraps the
fresh R1CS instance unchanged, and carries the new power-polynomial
commitment; the power-consistency-view instance has error-claim exactly zero,
references the previous zero-check view's commitment and the new commitment,
and carries the freshly squeezed challenge τ. -/
theorem zcr_view_instances_shape {K : Type} [CommRing K] (env : Env K)
    (ck : CommitmentKey K) (tr : Transcript K) (zcU : ZCPCInstance K)
    (zcW : ZCPCWitness K) (U : R1CSInstance K) (W : R1CSWitness K) (ell : Nat)
    (r_e tau : K) (nsc_U : NSCInstance K) (nsc_W : NSCWitness K)
    (nsc_pc_U : NSCPCInstance K) (nsc_pc_W : NSCPCWitness K)
    (zU : ZCPCInstance K) (zW : ZCPCWitness K) (tr' : Transcript K)
    (trv : Transcript K) (zcUv : ZCPCInstance K) (Uv : R1CSInstance K)
    (ce : Commitment K) (tauv : K) (nsc_Uv : NSCInstance K)
    (nsc_pc_Uv : NSCPCInstance K) (zUv : ZCPCInstance K) (trv' : Transcript K)
    (htau : env.squeezeFn tr.proto tr.hist "tau" = Except.ok tau)
    (hp : ZeroCheckReduction.prove env ck tr zcU zcW U W ell r_e =
      Except.ok (nsc_U, nsc_W, nsc_pc_U, nsc_pc_W, zU, zW, tr'))
    (htauv : env.squeezeFn trv.proto trv.hist "tau" = Except.ok tauv)
    (hv : ZeroCheckReduction.verify env trv zcUv Uv ce =
      Except.ok (nsc_Uv, nsc_pc_Uv, zUv, trv')) :
    (nsc_U.T = 0 ∧ nsc_U.U = U ∧
      nsc_U.comm_e = (PowPoly.new tau ell).commit ck r_e ∧
      nsc_pc_U.T = 0 ∧ nsc_pc_U.comm_old_e = zcU.comm_e ∧
      nsc_pc_U.comm_new_e = nsc_U.comm_e ∧ nsc_pc_U.tau = tau) ∧
    (nsc_Uv.T = 0 ∧ nsc_Uv.U = Uv ∧ nsc_Uv.comm_e = ce ∧
      nsc_pc_Uv.T = 0 ∧ nsc_pc_Uv.comm_old_e = zcUv.comm_e ∧
      nsc_pc_Uv.comm_new_e = ce ∧ nsc_pc_Uv.tau = tauv) := by
  rw [ZeroCheckReduction.prove_eq_ok env ck tr zcU zcW U W ell r_e tau htau]
    at hp
  rw [ZeroCheckReduction.verify_eq_ok env trv zcUv Uv ce tauv htauv] at hv
  simp only [Except.ok.injEq, Prod.mk.injEq] at hp hv
  obtain ⟨h1, _, h3, _, -⟩ := hp
  obtain ⟨h5, h6, -⟩ := hv
  subst h1 h3 h5 h6
  simp

/-- Closed evaluation of C7 on a concrete run over `ZMod 101`. -/
theorem zcr_view_instances_shape_witness :
    ((⟨0, U2W, commW⟩ : NSCInstance (ZMod 101)).T = 0 ∧
      (⟨0, U2W, commW⟩ : NSCInstance (ZMod 101)).U = U2W ∧
      (⟨0, U2W, commW⟩ : NSCInstance (ZMod 101)).comm_e =
        (PowPoly.new 3 0).commit ckW 6 ∧
      (⟨0, zcUW.comm_e, 3, commW⟩ : NSCPCInstance (ZMod 101)).T = 0 ∧
      (⟨0, zcUW.comm_e, 3, commW⟩ : NSCPCInstance (ZMod 101)).comm_old_e =
        zcUW.comm_e ∧
      (⟨0, zcUW.comm_e, 3, commW⟩ : NSCPCInstance (ZMod 101)).comm_new_e =
        (⟨0, U2W, commW⟩ : NSCInstance (ZMod 101)).comm_e ∧
      (⟨0, zcUW.comm_e, 3, commW⟩ : NSCPCInstance (ZMod 101)).tau = 3) ∧
    ((⟨0, U2W, commW⟩ : NSCInstance (ZMod 101)).T = 0 ∧
      (⟨0, U2W, commW⟩ : NSCInstance (ZMod 101)).U = U2W ∧
      (⟨0, U2W, commW⟩ : NSCInstance (ZMod 101)).comm_e = commW ∧
      (⟨0, zcUW.comm_e, 3, commW⟩ : NSCPCInstance (ZMod 101)).T = 0 ∧
      (⟨0, zcUW.comm_e, 3, commW⟩ : NSCPCInstance (ZMod 101)).comm_old_e =
        zcUW.comm_e ∧
      (⟨0, zcUW.comm_e, 3, commW⟩ : NSCPCInstance (ZMod 101)).comm_new_e =
        commW ∧
      (⟨0, zcUW.comm_e, 3, commW⟩ : NSCPCInstance (ZMod 101)).tau = 3) :=
  zcr_view_instances_shape envW ckW (Transcript.new "NeutronNova") zcUW zcWW
    U2W W2W 0 6 3 ⟨0, U2W, commW⟩ ⟨W2W, PowPoly.new 3 0, 6⟩
    ⟨0, zcUW.comm_e, 3, commW⟩ ⟨zcWW.e, PowPoly.new 3 0, zcWW.r_e, 6⟩
    ⟨commW, 3⟩ ⟨PowPoly.new 3 0, 6⟩
    ⟨"NeutronNova", [TEntry.squeezed "tau",
      TEntry.absorbed "comm_e" (TData.comm commW)]⟩
    (Transcript.new "NeutronNova") zcUW U2W commW 3 ⟨0, U2W, commW⟩
    ⟨0, zcUW.comm_e, 3, commW⟩ ⟨commW, 3⟩
    ⟨"NeutronNova", [TEntry.squeezed "tau",
      TEntry.absorbed "comm_e" (TData.comm commW)]⟩
    (by decide) (by decide) (by decide) (by decide)

/-- C9: the three views returned by `ZeroCheckReduction::prove` are mutually
consistent by construction — the NSC instance, the NSC_PC instance (new slot)
and the new ZC_PC instance all carry the same commitment, and the NSC witness,
the NSC_PC witness (new slot) and the new ZC_PC witness all carry the same
power polynomial `PowPoly(τ, ℓ)` with the same blinding scalar `r_e`, where τ
is the single challenge squeezed in this call. -/
theorem zcr_prove_views_consistent {K : Type} [CommRing K] (env : Env K)
    (ck : CommitmentKey K) (tr : Transcript K) (zcU : ZCPCInstance K)
    (zcW : ZCPCWitness K) (U : R1CSInstance K) (W : R1CSWitness K) (ell : Nat)
    (r_e tau : K) (nsc_U : NSCInstance K) (nsc_W : NSCWitness K)
    (nsc_pc_U : NSCPCInstance K) (nsc_pc_W : NSCPCWitness K)
    (zU : ZCPCInstance K) (zW : ZCPCWitness K) (tr' : Transcript K)
    (htau : env.squeezeFn tr.proto tr.hist "tau" = Except.ok tau)
    (hp : ZeroCheckReduction.prove env ck tr zcU zcW U W ell r_e =
      Except.ok (nsc_U, nsc_W, nsc_pc_U, nsc_pc_W, zU, zW, tr')) :
    nsc_U.comm_e = (PowPoly.new tau ell).commit ck r_e ∧
    nsc_pc_U.comm_new_e = nsc_U.comm_e ∧ zU.comm_e = nsc_U.comm_e ∧
    nsc_W.e = PowPoly.new tau ell ∧ nsc_pc_W.new_e = nsc_W.e ∧
    zW.e = nsc_W.e ∧ nsc_W.r_e = r_e ∧ nsc_pc_W.new_r_e = r_e ∧
    zW.r_e = r_e := by
  rw [ZeroCheckReduction.prove_eq_ok env ck tr zcU zcW U W ell r_e tau htau]
    at hp
  simp only [Except.ok.injEq, Prod.mk.injEq] at hp
  obtain ⟨h1, h2, h3, h4, h5, h6, -⟩ := hp
  subst h1 h2 h3 h4 h5 h6
  simp

/-- Closed evaluation of C9 on a concrete run over `ZMod 101`. -/
theorem zcr_prove_views_consistent_witness :
    (⟨0, U2W, commW⟩ : NSCInstance (ZMod 101)).comm_e =
      (PowPoly.new 3 0).commit ckW 6 ∧
    (⟨0, zcUW.comm_e, 3, commW⟩ : NSCPCInstance (ZMod 101)).comm_new_e =
      (⟨0, U2W, commW⟩ : NSCInstance (ZMod 101)).comm_e ∧
    (⟨commW, 3⟩ : ZCPCInstance (ZMod 101)).comm_e =
      (⟨0, U2W, commW⟩ : NSCInstance (ZMod 101)).comm_e ∧
    (⟨W2W, PowPoly.new 3 0, 6⟩ : NSCWitness (ZMod 101)).e = PowPoly.new 3 0 ∧
    (⟨zcWW.e, PowPoly.new 3 0, zcWW.r_e, 6⟩ :
      NSCPCWitness (ZMod 101)).new_e =
      (⟨W2W, PowPoly.new 3 0, 6⟩ : NSCWitness (ZMod 101)).e ∧
    (⟨PowPoly.new 3 0, 6⟩ : ZCPCWitness (ZMod 101)).e =
      (⟨W2W, PowPoly.new 3 0, 6⟩ : NSCWitness (ZMod 101)).e ∧
    (⟨W2W, PowPoly.new 3 0, 6⟩ : NSCWitness (ZMod 101)).r_e = 6 ∧
    (⟨zcWW.e, PowPoly.new 3 0, zcWW.r_e, 6⟩ :
      NSCPCWitness (ZMod 101)).new_r_e = 6 ∧
    (⟨PowPoly.new 3 0, 6⟩ : ZCPCWitness (ZMod 101)).r_e = 6 :=
  zcr_prove_views_consistent envW ckW (Transcript.new "NeutronNova") zcUW zcWW
    U2W W2W 0 6 3 ⟨0, U2W, commW⟩ ⟨W2W, PowPoly.new 3 0, 6⟩
    ⟨0, zcUW.comm_e, 3, commW⟩ ⟨zcWW.e, PowPoly.new 3 0, zcWW.r_e, 6⟩
    ⟨commW, 3⟩ ⟨PowPoly.new 3 0, 6⟩
    ⟨"NeutronNova", [TEntry.squeezed "tau",
      TEntry.absorbed "comm_e" (TData.comm commW)]⟩
    (by decide) (by decide)

/-- Unfolding of `NIFS::verify` when the two transcript squeezes succeed: the
computation reduces to the sumfold proof-check invoked on the re-derived
transcript with combined initial claim `U1.nsc.T + γ·U1.nsc_pc.T` and expected
final target 0, followed by the `T_γ` recovery and check. -/
lemma NIFS.verify_eq {K : Type} [Field K] [DecidableEq K] (env : Env K)
    (self : NIFS K) (U1 : RunningZFInstance K) (U2 : R1CSInstance K)
    (tau gamma : K)
    (htau : env.squeezeFn "NeutronNova"
      [TEntry.absorbed "U2" (TData.inst U2)] "tau" = Except.ok tau)
    (hgamma : env.squeezeFn "NeutronNova"
      [TEntry.absorbed "U2" (TData.inst U2), TEntry.squeezed "tau",
       TEntry.absorbed "comm_e" (TData.comm self.comm_e)] "gamma" =
      Except.ok gamma) :
    NIFS.verify env self U1 U2 =
      match env.sfVerify self.sf_proof
        ⟨"NeutronNova", [TEntry.absorbed "U2" (TData.inst U2),
          TEntry.squeezed "tau",
          TEntry.absorbed "comm_e" (TData.comm self.comm_e),
          TEntry.squeezed "gamma"]⟩
        (U1.nsc.T + gamma * U1.nsc_pc.T) 0 with
      | Except.error err => some (Except.error err)
      | Except.ok (c, beta, r_b, _) =>
        if (EqPolynomial.new [beta]).evaluate [r_b] = 0 then none
        else if c * ((EqPolynomial.new [beta]).evaluate [r_b])⁻¹ ≠
            self.T + gamma * self.T_pc then
          some (Except.error NovaError.ProofVerifyError)
        else
          some (Except.ok (U1.fold ⟨0, U2, self.comm_e⟩ r_b self.T
            ⟨0, U1.zc_pc.comm_e, tau, self.comm_e⟩ self.T_pc
            ⟨self.comm_e, tau⟩)) := by
  unfold NIFS.verify
  simp only [Transcript.new, Transcript.absorb, List.nil_append]
  rw [ZeroCheckReduction.verify_eq_ok env
    ⟨"NeutronNova", [TEntry.absorbed "U2" (TData.inst U2)]⟩ U1.zc_pc U2
    self.comm_e tau htau]
  unfold Transcript.squeeze
  simp only [List.cons_append, List.nil_append]
  rw [hgamma]

/-- C1: when the transcript squeezes and the sumfold proof-check succeed (and
the `T_γ` recovery is possible, i.e. the equality-polynomial evaluation is
invertible), `NIFS::verify` returns `Err(ProofVerifyError)` exactly when the
recovered `T_γ = c · eq(β, r_b)⁻¹` differs from `T + γ·T_pc`, and returns
`Ok` with the folded instance when they agree. -/
theorem nifs_verify_Tgamma_decides {K : Type} [Field K] [DecidableEq K]
    (env : Env K) (self : NIFS K) (U1 : RunningZFInstance K)
    (U2 : R1CSInstance K) (tau gamma c beta r_b : K) (trv : Transcript K)
    (htau : env.squeezeFn "NeutronNova"
      [TEntry.absorbed "U2" (TData.inst U2)] "tau" = Except.ok tau)
    (hgamma : env.squeezeFn "NeutronNova"
      [TEntry.absorbed "U2" (TData.inst U2), TEntry.squeezed "tau",
       TEntry.absorbed "comm_e" (TData.comm self.comm_e)] "gamma" =
      Except.ok gamma)
    (hsf : env.sfVerify self.sf_proof
      ⟨"NeutronNova", [TEntry.absorbed "U2" (TData.inst U2),
        TEntry.squeezed "tau",
        TEntry.absorbed "comm_e" (TData.comm self.comm_e),
        TEntry.squeezed "gamma"]⟩
      (U1.nsc.T + gamma * U1.nsc_pc.T) 0 = Except.ok (c, beta, r_b, trv))
    (hev : (EqPolynomial.new [beta]).evaluate [r_b] ≠ 0) :
    (c * ((EqPolynomial.new [beta]).evaluate [r_b])⁻¹ ≠
        self.T + gamma * self.T_pc →
      NIFS.verify env self U1 U2 =
        some (Except.error NovaError.ProofVerifyError)) ∧
    (c * ((EqPolynomial.new [beta]).evaluate [r_b])⁻¹ =
        self.T + gamma * self.T_pc →
      NIFS.verify env self U1 U2 =
        some (Except.ok (U1.fold ⟨0, U2, self.comm_e⟩ r_b self.T
          ⟨0, U1.zc_pc.comm_e, tau, self.comm_e⟩ self.T_pc
          ⟨self.comm_e, tau⟩))) := by
  rw [NIFS.verify_eq env self U1 U2 tau gamma htau hgamma, hsf]
  constructor
  · intro hne
    simp [hev, hne]
  · intro heq
    simp [hev, heq]

/-- Closed evaluation of C1 at a concrete proof and instances over
`ZMod 101`. -/
theorem nifs_verify_Tgamma_decides_witness :
    ((67 : ZMod 101) * ((EqPolynomial.new [(4 : ZMod 101)]).evaluate [2])⁻¹ ≠
        nifsW.T + 5 * nifsW.T_pc →
      NIFS.verify envW nifsW U1W U2W =
        some (Except.error NovaError.ProofVerifyError)) ∧
    ((67 : ZMod 101) * ((EqPolynomial.new [(4 : ZMod 101)]).evaluate [2])⁻¹ =
        nifsW.T + 5 * nifsW.T_pc →
      NIFS.verify envW nifsW U1W U2W =
        some (Except.ok (U1W.fold ⟨0, U2W, nifsW.comm_e⟩ 2 nifsW.T
          ⟨0, U1W.zc_pc.comm_e, 3, nifsW.comm_e⟩ nifsW.T_pc
          ⟨nifsW.comm_e, 3⟩))) :=
  nifs_verify_Tgamma_decides envW nifsW U1W U2W 3 5 67 4 2
    ⟨"NeutronNova", [TEntry.absorbed "U2" (TData.inst U2W),
      TEntry.squeezed "tau",
      TEntry.absorbed "comm_e" (TData.comm nifsW.comm_e),
      TEntry.squeezed "gamma"]⟩
    (by decide) (by decide) (by decide) (by decide)

/-- C5: under successful transcript squeezes, `NIFS::verify` invokes the
sumfold proof-check with combined initial claim `U1.nsc.T + γ·U1.nsc_pc.T`
and expected final target 0, and its whole result is determined by the triple
`(c, β, r_b)` that this call returns. -/
theorem nifs_verify_invokes_sumfold {K : Type} [Field K] [DecidableEq K]
    (env : Env K) (self : NIFS K) (U1 : RunningZFInstance K)
    (U2 : R1CSInstance K) (tau gamma c beta r_b : K) (trv : Transcript K)
    (htau : env.squeezeFn "NeutronNova"
      [TEntry.absorbed "U2" (TData.inst U2)] "tau" = Except.ok tau)
    (hgamma : env.squeezeFn "NeutronNova"
      [TEntry.absorbed "U2" (TData.inst U2), TEntry.squeezed "tau",
       TEntry.absorbed "comm_e" (TData.comm self.comm_e)] "gamma" =
      Except.ok gamma)
    (hsf : env.sfVerify self.sf_proof
      ⟨"NeutronNova", [TEntry.absorbed "U2" (TData.inst U2),
        TEntry.squeezed "tau",
        TEntry.absorbed "comm_e" (TData.comm self.comm_e),
        TEntry.squeezed "gamma"]⟩
      (U1.nsc.T + gamma * U1.nsc_pc.T) 0 = Except.ok (c, beta, r_b, trv)) :
    NIFS.verify env self U1 U2 =
      (if (EqPolynomial.new [beta]).evaluate [r_b] = 0 then none
       else if c * ((EqPolynomial.new [beta]).evaluate [r_b])⁻¹ ≠
           self.T + gamma * self.T_pc then
         some (Except.error NovaError.ProofVerifyError)
       else
         some (Except.ok (U1.fold ⟨0, U2, self.comm_e⟩ r_b self.T
           ⟨0, U1.zc_pc.comm_e, tau, self.comm_e⟩ self.T_pc
           ⟨self.comm_e, tau⟩))) := by
  rw [NIFS.verify_eq env self U1 U2 tau gamma htau hgamma, hsf]

/-- Closed evaluation of C5 at a concrete proof and instances over
`ZMod 101`. -/
theorem nifs_verify_invokes_sumfold_witness :
    NIFS.verify envW nifsW U1W U2W =
      (if (EqPolynomial.new [(4 : ZMod 101)]).evaluate [2] = 0 then none
       else if (67 : ZMod 101) *
           ((EqPolynomial.new [(4 : ZMod 101)]).evaluate [2])⁻¹ ≠
           nifsW.T + 5 * nifsW.T_pc then
         some (Except.error NovaError.ProofVerifyError)
       else
         some (Except.ok (U1W.fold ⟨0, U2W, nifsW.comm_e⟩ 2 nifsW.T
           ⟨0, U1W.zc_pc.comm_e, 3, nifsW.comm_e⟩ nifsW.T_pc
           ⟨nifsW.comm_e, 3⟩))) :=
  nifs_verify_invokes_sumfold envW nifsW U1W U2W 3 5 67 4 2
    ⟨"NeutronNova", [TEntry.absorbed "U2" (TData.inst U2W),
      TEntry.squeezed "tau",
      TEntry.absorbed "comm_e" (TData.comm nifsW.comm_e),
      TEntry.squeezed "gamma"]⟩
    (by decide) (by decide) (by decide)

/-- C8: `NIFS::verify` is a deterministic function of the proof and the two
instances — two executions on equal arguments return the same result. -/
theorem nifs_verify_deterministic {K : Type} [Field K] [DecidableEq K]
    (env : Env K) (p1 p2 : NIFS K) (U1a U1b : RunningZFInstance K)
    (U2a U2b : R1CSInstance K) (h1 : p1 = p2) (h2 : U1a = U1b)
    (h3 : U2a = U2b) :
    NIFS.verify env p1 U1a U2a = NIFS.verify env p2 U1b U2b := by
  subst h1
  subst h2
  subst h3
  rfl

/-- Closed evaluation of C8 at concrete arguments over `ZMod 101`. -/
theorem nifs_verify_deterministic_witness :
    NIFS.verify envW nifsW U1W U2W = NIFS.verify envW nifsW U1W U2W :=
  nifs_verify_deterministic envW nifsW nifsW U1W U1W U2W U2W rfl rfl rfl

/-- C3 (failing input): with collaborators whose sumfold proof-check returns
`β = 0`, `r_b = 1`, the equality-polynomial evaluation is zero and
`NIFS::verify` panics (the `none` case — the `.unwrap()` on the failed field
inversion at `nifs.rs` line 142) instead of returning a verification-failure
error as the spec requires. -/
theorem nifs_verify_panics_on_zero_eq_eval :
    (EqPolynomial.new [(0 : ZMod 101)]).evaluate [1] = 0 ∧
    NIFS.verify envP nifsW U1W U2W = none := by
  decide

/-- Unfolding of `NIFS::prove` when every collaborator call succeeds: the
proof carries the new power-polynomial commitment, the sumfold proof and the
two final evaluations, and the new accumulator pair is the fold of the running
pair with the reduction's output views at the pinned point `r_b`. -/
lemma NIFS.prove_ok_eq {K : Type} [Field K] [DecidableEq K] (env : Env K)
    (S : R1CSShape K) (ck : CommitmentKey K) (U1 : RunningZFInstance K)
    (W1 : RunningZFWitness K) (U2 : R1CSInstance K) (W2 : R1CSWitness K)
    (r_e tau gamma : K) (ell : Nat) (comm : Commitment K)
    (g h g_pc h_pc : SFInput K) (sfp : SumFoldProof K) (r_b T T_pc : K)
    (tr3 : Transcript K)
    (hell : ell = log_2 S.num_cons)
    (hcomm : comm = (PowPoly.new tau ell).commit ck r_e)
    (htau : env.squeezeFn "NeutronNova"
      [TEntry.absorbed "U2" (TData.inst U2)] "tau" = Except.ok tau)
    (hg : env.nscToSF S U1.nsc.U W1.nsc.W W1.nsc.e = Except.ok g)
    (hh : env.nscToSF S U2 W2 (PowPoly.new tau ell) = Except.ok h)
    (hgpc : env.nscPcToSF W1.nsc_pc.e W1.nsc_pc.new_e = Except.ok g_pc)
    (hhpc : env.nscPcToSF W1.zc_pc.e (PowPoly.new tau ell) = Except.ok h_pc)
    (hgamma : env.squeezeFn "NeutronNova"
      [TEntry.absorbed "U2" (TData.inst U2), TEntry.squeezed "tau",
       TEntry.absorbed "comm_e" (TData.comm comm)] "gamma" = Except.ok gamma)
    (hsum : env.sumfoldFn
      ⟨"NeutronNova", [TEntry.absorbed "U2" (TData.inst U2),
        TEntry.squeezed "tau", TEntry.absorbed "comm_e" (TData.comm comm),
        TEntry.squeezed "gamma"]⟩
      g h U1.nsc.T (fun az bz cz h1 h2 => (az * bz - cz) * h1 * h2)
      g_pc h_pc U1.nsc_pc.T (fun g1 g2 g3 h1 h2 => (g1 - g2 * g3) * h1 * h2)
      gamma = Except.ok (sfp, r_b, T, T_pc, tr3)) :
    NIFS.prove env S ck U1 W1 U2 W2 r_e =
      Except.ok (⟨comm, sfp, T, T_pc⟩,
        U1.fold ⟨0, U2, comm⟩ r_b T ⟨0, U1.zc_pc.comm_e, tau, comm⟩ T_pc
          ⟨comm, tau⟩,
        W1.fold ⟨W2, PowPoly.new tau ell, r_e⟩ r_b
          ⟨W1.zc_pc.e, PowPoly.new tau ell, W1.zc_pc.r_e, r_e⟩
          ⟨PowPoly.new tau ell, r_e⟩) := by
  subst hell
  subst hcomm
  unfold NIFS.prove
  simp only [Transcript.new, Transcript.absorb, List.nil_append]
  rw [ZeroCheckReduction.prove_eq_ok env ck
    ⟨"NeutronNova", [TEntry.absorbed "U2" (TData.inst U2)]⟩ U1.zc_pc W1.zc_pc
    U2 W2 (log_2 S.num_cons) r_e tau htau]
  simp only [hg, hh, hgpc, hhpc]
  unfold Transcript.squeeze
  simp only [List.cons_append, List.nil_append]
  rw [hgamma]
  simp only [hsum]

/-- C2: prove-then-verify agreement — whenever `NIFS::prove` succeeds (its
collaborator calls are spelled out as hypotheses, together with the sumfold
engine's completeness contract: its proof-check accepts the produced proof at
the same pinned point `r_b` with a final combined value consistent with
`T + γ·T_pc`), `verify` on the resulting proof and instances returns `Ok`
with an instance equal to the instance half of `prove`'s output. -/
theorem nifs_prove_then_verify_agree {K : Type} [Field K] [DecidableEq K]
    (env : Env K) (S : R1CSShape K) (ck : CommitmentKey K)
    (U1 : RunningZFInstance K) (W1 : RunningZFWitness K) (U2 : R1CSInstance K)
    (W2 : R1CSWitness K) (r_e tau gamma : K) (ell : Nat) (comm : Commitment K)
    (g h g_pc h_pc : SFInput K) (sfp : SumFoldProof K) (r_b T T_pc : K)
    (tr3 : Transcript K) (c beta : K) (trv : Transcript K)
    (hell : ell = log_2 S.num_cons)
    (hcomm : comm = (PowPoly.new tau ell).commit ck r_e)
    (htau : env.squeezeFn "NeutronNova"
      [TEntry.absorbed "U2" (TData.inst U2)] "tau" = Except.ok tau)
    (hg : env.nscToSF S U1.nsc.U W1.nsc.W W1.nsc.e = Except.ok g)
    (hh : env.nscToSF S U2 W2 (PowPoly.new tau ell) = Except.ok h)
    (hgpc : env.nscPcToSF W1.nsc_pc.e W1.nsc_pc.new_e = Except.ok g_pc)
    (hhpc : env.nscPcToSF W1.zc_pc.e (PowPoly.new tau ell) = Except.ok h_pc)
    (hgamma : env.squeezeFn "NeutronNova"
      [TEntry.absorbed "U2" (TData.inst U2), TEntry.squeezed "tau",
       TEntry.absorbed "comm_e" (TData.comm comm)] "gamma" = Except.ok gamma)
    (hsum : env.sumfoldFn
      ⟨"NeutronNova", [TEntry.absorbed "U2" (TData.inst U2),
        TEntry.squeezed "tau", TEntry.absorbed "comm_e" (TData.comm comm),
        TEntry.squeezed "gamma"]⟩
      g h U1.nsc.T (fun az bz cz h1 h2 => (az * bz - cz) * h1 * h2)
      g_pc h_pc U1.nsc_pc.T (fun g1 g2 g3 h1 h2 => (g1 - g2 * g3) * h1 * h2)
      gamma = Except.ok (sfp, r_b, T, T_pc, tr3))
    (hsfv : env.sfVerify sfp
      ⟨"NeutronNova", [TEntry.absorbed "U2" (TData.inst U2),
        TEntry.squeezed "tau", TEntry.absorbed "comm_e" (TData.comm comm),
        TEntry.squeezed "gamma"]⟩
      (U1.nsc.T + gamma * U1.nsc_pc.T) 0 = Except.ok (c, beta, r_b, trv))
    (hev : (EqPolynomial.new [beta]).evaluate [r_b] ≠ 0)
    (hc : c * ((EqPolynomial.new [beta]).evaluate [r_b])⁻¹ =
      T + gamma * T_pc) :
    ∃ nifs U W, NIFS.prove env S ck U1 W1 U2 W2 r_e =
        Except.ok (nifs, U, W) ∧
      NIFS.verify env nifs U1 U2 = some (Except.ok U) := by
  refine ⟨⟨comm, sfp, T, T_pc⟩,
    U1.fold ⟨0, U2, comm⟩ r_b T ⟨0, U1.zc_pc.comm_e, tau, comm⟩ T_pc
      ⟨comm, tau⟩,
    W1.fold ⟨W2, PowPoly.new tau ell, r_e⟩ r_b
      ⟨W1.zc_pc.e, PowPoly.new tau ell, W1.zc_pc.r_e, r_e⟩
      ⟨PowPoly.new tau ell, r_e⟩,
    NIFS.prove_ok_eq env S ck U1 W1 U2 W2 r_e tau gamma ell comm g h g_pc
      h_pc sfp r_b T T_pc tr3 hell hcomm htau hg hh hgpc hhpc hgamma hsum,
    ?_⟩
  rw [NIFS.verify_eq env ⟨comm, sfp, T, T_pc⟩ U1 U2 tau gamma htau hgamma]
  simp only [hsfv]
  simp [hev, hc]

/-- Closed evaluation of C2: a full prove-then-verify round trip over
`ZMod 101` at the spec's ℓ = 0 boundary case. -/
theorem nifs_prove_then_verify_agree_witness :
    ∃ nifs U W, NIFS.prove envW SW ckW U1W W1W U2W W2W 6 =
        Except.ok (nifs, U, W) ∧
      NIFS.verify envW nifs U1W U2W = some (Except.ok U) :=
  nifs_prove_then_verify_agree envW SW ckW U1W W1W U2W W2W 6 3 5 0 commW
    ⟨[]⟩ ⟨[]⟩ ⟨[]⟩ ⟨[]⟩ ⟨[]⟩ 2 7 9
    ⟨"NeutronNova", [TEntry.absorbed "U2" (TData.inst U2W),
      TEntry.squeezed "tau", TEntry.absorbed "comm_e" (TData.comm commW),
      TEntry.squeezed "gamma"]⟩ 67 4
    ⟨"NeutronNova", [TEntry.absorbed "U2" (TData.inst U2W),
      TEntry.squeezed "tau", TEntry.absorbed "comm_e" (TData.comm commW),
      TEntry.squeezed "gamma"]⟩
    (by decide) (by decide) (by decide) (by decide) (by decide) (by decide)
    (by decide) (by decide) (by decide) (by decide) (by decide)
    (by rw [← div_eq_mul_inv, div_eq_iff (by decide :
      ((EqPolynomial.new [(4 : ZMod 101)]).evaluate [2]) ≠ 0)]; decide)

/-- C10: for every successful `NIFS::prove`, the `comm_e` field stored in the
returned fold proof equals the commitment held in the carried-forward
zero-check-commitment view of the new running accumulator instance. -/
theorem nifs_proof_comm_binds_next_zc {K : Type} [Field K] [DecidableEq K]
    (env : Env K) (S : R1CSShape K) (ck : CommitmentKey K)
    (U1 : RunningZFInstance K) (W1 : RunningZFWitness K) (U2 : R1CSInstance K)
    (W2 : R1CSWitness K) (r_e : K) (nifs : NIFS K) (U : RunningZFInstance K)
    (W : RunningZFWitness K)
    (hp : NIFS.prove env S ck U1 W1 U2 W2 r_e = Except.ok (nifs, U, W)) :
    nifs.comm_e = U.zc_pc.comm_e := by
  unfold NIFS.prove at hp
  simp only [Transcript.new, Transcript.absorb, List.nil_append] at hp
  cases h1 : ZeroCheckReduction.prove env ck
      ⟨"NeutronNova", [TEntry.absorbed "U2" (TData.inst U2)]⟩ U1.zc_pc
      W1.zc_pc U2 W2 (log_2 S.num_cons) r_e with
  | error err => simp only [h1] at hp; exact Except.noConfusion hp
  | ok t =>
    obtain ⟨nsc_U2, nsc_W2, nsc_pc_U2, nsc_pc_W2, zU, zW, tr1⟩ := t
    simp only [h1] at hp
    cases h2 : env.nscToSF S U1.nsc.U W1.nsc.W W1.nsc.e with
    | error err => simp only [h2] at hp; exact Except.noConfusion hp
    | ok g =>
      simp only [h2] at hp
      cases h3 : env.nscToSF S nsc_U2.U nsc_W2.W nsc_W2.e with
      | error err => simp only [h3] at hp; exact Except.noConfusion hp
      | ok h =>
        simp only [h3] at hp
        cases h4 : env.nscPcToSF W1.nsc_pc.e W1.nsc_pc.new_e with
        | error err => simp only [h4] at hp; exact Except.noConfusion hp
        | ok g_pc =>
          simp only [h4] at hp
          cases h5 : env.nscPcToSF nsc_pc_W2.e nsc_pc_W2.new_e with
          | error err => simp only [h5] at hp; exact Except.noConfusion hp
          | ok h_pc =>
            simp only [h5] at hp
            cases h6 : Transcript.squeeze tr1 env "gamma" with
            | error err => simp only [h6] at hp; exact Except.noConfusion hp
            | ok p =>
              obtain ⟨gamma, tr2⟩ := p
              simp only [h6] at hp
              cases h7 : env.sumfoldFn tr2 g h U1.nsc.T
                  (fun az bz cz h1 h2 => (az * bz - cz) * h1 * h2)
                  g_pc h_pc U1.nsc_pc.T
                  (fun g1 g2 g3 h1 h2 => (g1 - g2 * g3) * h1 * h2)
                  gamma with
              | error err => simp only [h7] at hp; exact Except.noConfusion hp
              | ok q =>
                obtain ⟨sfp, r_b, T, T_pc, tr3⟩ := q
                simp only [h7, Except.ok.injEq, Prod.mk.injEq] at hp
                obtain ⟨hn, hU, -⟩ := hp
                subst hn
                subst hU
                simp [RunningZFInstance.fold]

/-- Closed evaluation of C10 on a concrete successful prove over `ZMod 101`. -/
theorem nifs_proof_comm_binds_next_zc_witness :
    (⟨commW, ⟨[]⟩, 7, 9⟩ : NIFS (ZMod 101)).comm_e =
      (U1W.fold ⟨0, U2W, commW⟩ 2 7 ⟨0, U1W.zc_pc.comm_e, 3, commW⟩ 9
        ⟨commW, 3⟩).zc_pc.comm_e :=
  nifs_proof_comm_binds_next_zc envW SW ckW U1W W1W U2W W2W 6
    ⟨commW, ⟨[]⟩, 7, 9⟩
    (U1W.fold ⟨0, U2W, commW⟩ 2 7 ⟨0, U1W.zc_pc.comm_e, 3, commW⟩ 9
      ⟨commW, 3⟩)
    (W1W.fold ⟨W2W, PowPoly.new 3 0, 6⟩ 2
      ⟨W1W.zc_pc.e, PowPoly.new 3 0, W1W.zc_pc.r_e, 6⟩ ⟨PowPoly.new 3 0, 6⟩)
    (by decide)

/-- C4 (the provable half): the embedded `NIFS::prove` is deterministic once
the blinding scalar — the only randomness consumed by the call — is fixed:
byte-identical inputs and an identical blinding scalar yield identical
results, in particular identical fold proofs. -/
theorem nifs_prove_deterministic_given_blinding {K : Type} [Field K]
    [DecidableEq K] (env : Env K) (S : R1CSShape K) (ck : CommitmentKey K)
    (U1 : RunningZFInstance K) (W1 : RunningZFWitness K) (U2 : R1CSInstance K)
    (W2 : R1CSWitness K) (r_e1 r_e2 : K) (h : r_e1 = r_e2) :
    NIFS.prove env S ck U1 W1 U2 W2 r_e1 =
      NIFS.prove env S ck U1 W1 U2 W2 r_e2 := by
  subst h
  rfl

/-- Closed evaluation of C4's determinism statement at concrete inputs. -/
theorem nifs_prove_deterministic_given_blinding_witness :
    NIFS.prove envW SW ckW U1W W1W U2W W2W 6 =
      NIFS.prove envW SW ckW U1W W1W U2W W2W 6 :=
  nifs_prove_deterministic_given_blinding envW SW ckW U1W W1W U2W W2W 6 6 rfl
